import Mathlib

/-!
Shallow embedding of `src/lv_widgets/lv_linearscale.c` (a linear scale
widget: value/range state with clamping setters, and a tick/label/color
rendering pass), together with theorems settling the specification claims.

Machine integers (`int32_t`, `uint16_t`, `int16_t`) are modelled as
unbounded `Int`/`Nat`; C's truncating division is `Int.tdiv`, and the one
narrowing conversion that matters (the `int16_t` cast of the fill level)
is modelled explicitly by `toInt16`.  Redraw requests
(`lv_obj_invalidate`) are modelled by returning, next to the new state,
the number of invalidate calls the C function performs.
-/

namespace Linearscale

/-- Alignment values from `lv_linearscale.h` (`LV_LINEARSCALE_ALIGN_...`). -/
inductive Align where
  | top
  | bot
  | left
  | right
deriving DecidableEq, Repr

/-- The widget state `lv_linearscale_ext_t` (the `format_cb` field only
affects label text formatting and is not modelled). -/
structure Ext where
  line_cnt : Nat
  label_cnt : Nat
  cur_value : Int
  min_value : Int
  max_value : Int
  align : Align
deriving DecidableEq, Repr

/-- Embedding of `lv_linearscale_set_value`: early-returns when the raw argument equals
the stored value, otherwise clamps into `[min_value, max_value]`
(upper bound first, then lower bound) and invalidates.  The second
component counts `lv_obj_invalidate` calls. -/
def lv_linearscale_set_value (ext : Ext) (value : Int) : Ext × Nat :=
  if ext.cur_value = value then (ext, 0)
  else
    let c1 := if value > ext.max_value then ext.max_value else value
    let c2 := if c1 < ext.min_value then ext.min_value else c1
    ({ ext with cur_value := c2 }, 1)

/-- Embedding of `lv_linearscale_set_range`: early-returns when both bounds are
unchanged; otherwise stores the new bounds, and when the current value
lies outside them assigns the clamped value directly and then calls
`lv_linearscale_set_value` with that very value; finally invalidates. -/
def lv_linearscale_set_range (ext : Ext) (min max : Int) : Ext × Nat :=
  if ext.min_value = min ∧ ext.max_value = max then (ext, 0)
  else
    let ext1 : Ext := { ext with max_value := max, min_value := min }
    let s2 : Ext × Nat :=
      if ext1.cur_value > max then
        lv_linearscale_set_value { ext1 with cur_value := max } max
      else (ext1, 0)
    let s3 : Ext × Nat :=
      if s2.1.cur_value < min then
        lv_linearscale_set_value { s2.1 with cur_value := min } min
      else (s2.1, 0)
    (s3.1, s2.2 + s3.2 + 1)

/-- Embedding of `lv_linearscale_set_scale`: rejects `line_cnt = 0` silently,
early-returns when both counts are unchanged, otherwise stores them and
invalidates. -/
def lv_linearscale_set_scale (ext : Ext) (line_cnt label_cnt : Nat) : Ext × Nat :=
  if line_cnt = 0 then (ext, 0)
  else if ext.line_cnt = line_cnt ∧ ext.label_cnt = label_cnt then (ext, 0)
  else ({ ext with line_cnt := line_cnt, label_cnt := label_cnt }, 1)

/-- Embedding of `lv_linearscale_set_alignment`: early-returns when the alignment is
unchanged, otherwise stores it and invalidates. -/
def lv_linearscale_set_alignment (ext : Ext) (dir : Align) : Ext × Nat :=
  if ext.align = dir then (ext, 0)
  else ({ ext with align := dir }, 1)

/-- Embedding of `lv_linearscale_get_value`. -/
def lv_linearscale_get_value (ext : Ext) : Int := ext.cur_value

/-- The clamp `lv_linearscale_set_value` applies to its argument
(upper bound first, then lower bound), factored out for stating claims. -/
def clampValue (ext : Ext) (value : Int) : Int :=
  let c1 := if value > ext.max_value then ext.max_value else value
  if c1 < ext.min_value then ext.min_value else c1

/-- The stored-value invariant claimed by the spec. -/
def valueInvariant (ext : Ext) : Prop :=
  ext.min_value ≤ ext.cur_value ∧ ext.cur_value ≤ ext.max_value

instance (ext : Ext) : Decidable (valueInvariant ext) := by
  unfold valueInvariant
  infer_instance

/-- The default state installed by `lv_linearscale_create` (range 0..100,
value 0, 26 lines, 6 labels, left alignment). -/
def defaultExt : Ext :=
  { line_cnt := 26, label_cnt := 6, cur_value := 0, min_value := 0
    max_value := 100, align := Align.left }

/-- C1 counterexample state: range `[0,100]`, value 25. -/
def extC1 : Ext := { defaultExt with cur_value := 25 }

/-- C1 example state: range `[0,100]`, stored value 100. -/
def extFull : Ext := { defaultExt with cur_value := 100 }

/-- C1: setting a reversed range (min > max) leaves the stored value above
the stored maximum: from range `[0,100]`, value 25, calling
`set_range(50, 0)` yields `min_value = 50`, `max_value = 0`,
`cur_value = 50`, violating `min_value ≤ cur_value ≤ max_value`.  So the
claimed invariant does not hold after every setter call. -/
theorem C1_counterexample :
    ¬ valueInvariant (lv_linearscale_set_range extC1 50 0).1 := by
  decide

/-- C1 (amended): provided the invariant held before the call and, for
`set_range`, the new bounds satisfy `min ≤ max`, every setter
re-establishes `min_value ≤ cur_value ≤ max_value`; moreover with stored
value 100 and range `[0,100]`, `set_range(0, 50)` yields value 50. -/
theorem C1_clamp_invariant (ext : Ext) (v mn mx : Int) (lc lb : Nat) (dir : Align)
    (hinv : valueInvariant ext) (hr : mn ≤ mx) :
    valueInvariant (lv_linearscale_set_value ext v).1 ∧
    valueInvariant (lv_linearscale_set_range ext mn mx).1 ∧
    valueInvariant (lv_linearscale_set_scale ext lc lb).1 ∧
    valueInvariant (lv_linearscale_set_alignment ext dir).1 ∧
    lv_linearscale_get_value (lv_linearscale_set_range extFull 0 50).1 = 50 := by
  obtain ⟨h1, h2⟩ := hinv
  refine ⟨?_, ?_, ?_, ?_, by decide⟩
  · simp only [lv_linearscale_set_value, valueInvariant]
    split_ifs <;> simp_all <;> omega
  · simp only [lv_linearscale_set_range, lv_linearscale_set_value, valueInvariant]
    split_ifs <;> simp_all <;> omega
  · simp only [lv_linearscale_set_scale, valueInvariant]
    split_ifs <;> simp_all
  · simp only [lv_linearscale_set_alignment, valueInvariant]
    split_ifs <;> simp_all

/-- C1 witness: the amended invariant theorem applied to the default
state. -/
theorem C1_clamp_invariant_witness :
    valueInvariant (lv_linearscale_set_value defaultExt 150).1 ∧
    valueInvariant (lv_linearscale_set_range defaultExt 0 50).1 ∧
    valueInvariant (lv_linearscale_set_scale defaultExt 10 3).1 ∧
    valueInvariant (lv_linearscale_set_alignment defaultExt Align.top).1 ∧
    lv_linearscale_get_value (lv_linearscale_set_range extFull 0 50).1 = 50 :=
  C1_clamp_invariant defaultExt 150 0 50 10 3 Align.top (by decide) (by decide)

/-- C2 counterexample: with stored value 100 and range `[0,100]`, calling
`set_range(0, 50)` (the value 100 falls outside the new range, so the
re-clamp path runs) issues exactly one `lv_obj_invalidate`, not two. -/
theorem C2_counterexample :
    (lv_linearscale_set_range extFull 0 50).2 = 1 ∧ (1 : Nat) ≠ 2 := by
  decide

/-- C2 (amended): whenever `set_range` does not early-return, the nested
`set_value` call is a no-op (it is passed the value just stored, so its
equality guard fires) and exactly one `lv_obj_invalidate` is issued, even
when the stored value fell outside the new range and was re-clamped. -/
theorem C2_single_invalidate (ext : Ext) (mn mx : Int)
    (hne : ¬ (ext.min_value = mn ∧ ext.max_value = mx))
    (hout : ext.cur_value > mx ∨ ext.cur_value < mn) :
    (lv_linearscale_set_range ext mn mx).2 = 1 := by
  clear hout
  simp only [lv_linearscale_set_range, lv_linearscale_set_value]
  split_ifs <;> simp_all

/-- C2 witness: the single-invalidate theorem at the concrete example
state. -/
theorem C2_single_invalidate_witness :
    (lv_linearscale_set_range extFull 0 50).2 = 1 :=
  C2_single_invalidate extFull 0 50 (by decide) (by decide)

/-- C10: when the argument differs from the stored value but clamps back
to it, `lv_linearscale_set_value` changes no field yet still issues one
`lv_obj_invalidate` — the no-op guard compares the raw argument, not the
clamped result. -/
theorem C10_redundant_invalidate (ext : Ext) (v : Int)
    (hne : v ≠ ext.cur_value) (hclamp : clampValue ext v = ext.cur_value) :
    lv_linearscale_set_value ext v = (ext, 1) := by
  have hv : lv_linearscale_set_value ext v =
      ({ ext with cur_value := clampValue ext v }, 1) := by
    simp only [lv_linearscale_set_value, clampValue]
    split_ifs with h <;> first | rfl | exact absurd h.symm hne
  rw [hv, hclamp]

/-- C10 witness: stored value 100 with range `[0,100]`; setting 150 leaves
the state unchanged but invalidates once. -/
theorem C10_redundant_invalidate_witness :
    lv_linearscale_set_value extFull 150 = (extFull, 1) :=
  C10_redundant_invalidate extFull 150 (by decide) (by decide)

/-- A point (`lv_point_t`). -/
structure Point where
  x : Int
  y : Int
deriving DecidableEq, Repr

/-- A rectangle (`lv_area_t`). -/
structure Area where
  x1 : Int
  y1 : Int
  x2 : Int
  y2 : Int
deriving DecidableEq, Repr

/-- Embedding of `lv_area_get_width`. -/
def lv_area_get_width (a : Area) : Int := a.x2 - a.x1 + 1

/-- Embedding of `lv_area_get_height`. -/
def lv_area_get_height (a : Area) : Int := a.y2 - a.y1 + 1

/-- An RGB color with 8-bit channels. -/
structure Color where
  r : Nat
  g : Nat
  b : Nat
deriving DecidableEq, Repr

/-- Modelled from the spec: `lv_color_mix` (declared in the repository's
`lv_misc` color header, which is not under src/) blends its first color
toward its second channelwise; per the spec's words, mix fraction 0 yields
the first color (pure `gradColor` at the call site) and the blend
approaches the second color (`mainColor`) as the fraction grows to 255. -/
def lv_color_mix (c1 c2 : Color) (mix : Nat) : Color :=
  { r := (c1.r * (255 - mix) + c2.r * mix) / 255
    g := (c1.g * (255 - mix) + c2.g * mix) / 255
    b := (c1.b * (255 - mix) + c2.b * mix) / 255 }

/-- Everything `lv_linearscale_draw_scale` reads from the host: the widget
state, its bounding rectangle `lscale->coords`, the background paddings,
and the style values it queries (`scale_width`, the line width installed
by `lv_obj_init_draw_line_dsc`, the three colors, and the end line
width). -/
structure DrawInput where
  ext : Ext
  coords : Area
  bg_left : Int
  bg_right : Int
  bg_top : Int
  bg_bottom : Int
  scale_width : Int
  line_width : Int
  main_color : Color
  grad_color : Color
  end_color : Color
  end_line_width : Int
deriving DecidableEq, Repr

/-- The indicator area: the widget rectangle shrunk by the background
paddings. -/
def indic_area (inp : DrawInput) : Area :=
  { x1 := inp.coords.x1 + inp.bg_left
    y1 := inp.coords.y1 + inp.bg_top
    x2 := inp.coords.x2 - inp.bg_right
    y2 := inp.coords.y2 - inp.bg_bottom }

/-- Embedding of `lv_obj_get_width lscale`: width of the full widget rectangle. -/
def objw (inp : DrawInput) : Int := lv_area_get_width inp.coords

/-- Embedding of `lv_obj_get_height lscale`: height of the full widget rectangle. -/
def objh (inp : DrawInput) : Int := lv_area_get_height inp.coords

/-- The source line `bool hor = objw >= objh ? true : false;` — note the comparison is on
the full widget rectangle, before the paddings are subtracted. -/
def hor (inp : DrawInput) : Bool := decide (objw inp ≥ objh inp)

/-- Two's-complement narrowing of an integer to `int16_t`. -/
def toInt16 (z : Int) : Int := (z + 32768) % 65536 - 32768

/-- The fill level
`(int16_t)((int32_t)(cur_value - min_value) * line_cnt / (max_value - min_value))`,
with C's truncating division and the `int16_t` narrowing made explicit. -/
def level (inp : DrawInput) : Int :=
  toInt16 (Int.tdiv ((inp.ext.cur_value - inp.ext.min_value) * (inp.ext.line_cnt : Int))
    (inp.ext.max_value - inp.ext.min_value))

/-- The derived major-tick step `int16_t label_counter`:
`line_cnt / (label_cnt - 1)` when `label_cnt > 1`, else 0.  The variable
is declared `int16_t` in the source, so the quotient (up to 65535) is
narrowed through the `int16_t` conversion and can wrap negative. -/
def label_counter (ext : Ext) : Int :=
  if ext.label_cnt > 1 then toInt16 ((ext.line_cnt / (ext.label_cnt - 1) : Nat) : Int)
  else 0

/-- The primary-axis tick coordinate
`(100 * len * i / (line_cnt - 1)) / 100` (both divisions are C's
truncating division). -/
def tick_coord (len : Int) (i : Nat) (line_cnt : Nat) : Int :=
  Int.tdiv (Int.tdiv (100 * len * (i : Int)) ((line_cnt : Int) - 1)) 100

/-- One emitted tick: the drawn segment endpoints, the draw-descriptor
color and stroke width in force when it is drawn, its geometric
`tick_width`, its minor flag, and (for major ticks) its numeric label
value. -/
structure Tick where
  p1 : Point
  p2 : Point
  color : Color
  dsc_width : Int
  tick_width : Int
  minor : Bool
  label : Option Int
deriving DecidableEq, Repr

instance : Inhabited Tick :=
  ⟨⟨⟨0, 0⟩, ⟨0, 0⟩, ⟨0, 0, 0⟩, 0, 0, false, none⟩⟩

/-- One iteration of the tick loop in `lv_linearscale_draw_scale`.
Returns `none` exactly on the C fault `i % 0`, reached when the derived
`label_counter` is zero. -/
def draw_tick (inp : DrawInput) (i : Nat) : Option Tick :=
  let lc := label_counter inp.ext
  if lc = 0 then none
  else
    let minor : Bool := Int.tmod (i : Int) lc != 0
    let tick_width : Int := if minor then Int.tdiv inp.scale_width 2 else inp.scale_width
    let a := indic_area inp
    let pts : Point × Point :=
      if hor inp then
        let x := tick_coord (a.x2 - a.x1) i inp.ext.line_cnt
        let px := a.x1 + x
        if inp.ext.align = Align.top then
          (⟨px, a.y1⟩, ⟨px, a.y1 + tick_width⟩)
        else
          (⟨px, a.y2 - tick_width⟩, ⟨px, a.y2⟩)
      else
        let y := tick_coord (a.y2 - a.y1) i inp.ext.line_cnt
        let py := a.y2 - y
        if inp.ext.align = Align.left then
          (⟨a.x1, py⟩, ⟨a.x1 + tick_width, py⟩)
        else
          (⟨a.x2 - tick_width, py⟩, ⟨a.x2, py⟩)
    let colw : Color × Int :=
      if (i : Int) ≥ level inp then (inp.end_color, inp.end_line_width)
      else
        (lv_color_mix inp.grad_color inp.main_color ((255 * i) / inp.ext.line_cnt),
          inp.line_width)
    let lbl : Option Int :=
      if minor then none
      else
        some (Int.tdiv ((inp.ext.max_value - inp.ext.min_value) * (i : Int))
          ((inp.ext.line_cnt : Int) - 1) + inp.ext.min_value)
    some { p1 := pts.1, p2 := pts.2, color := colw.1, dsc_width := colw.2,
           tick_width := tick_width, minor := minor, label := lbl }

/-- The tick loop of `lv_linearscale_draw_scale`: it runs only when
`line_cnt > 1`; the result is `none` when an iteration faults. -/
def lv_linearscale_draw_scale (inp : DrawInput) : Option (List Tick) :=
  if inp.ext.line_cnt > 1 then
    (List.range inp.ext.line_cnt).mapM (draw_tick inp)
  else some []

/-- The `lv_design_mode_t` values relevant to `lv_linearscale_design`. -/
inductive DesignMode where
  | cover_chk
  | draw_main
  | draw_post
deriving DecidableEq, Repr

/-- Embedding of `lv_linearscale_design`: the public render entry point runs the scale
pass when asked to draw the main area (the background rectangle draw has
no modelled output). -/
def lv_linearscale_design (inp : DrawInput) (mode : DesignMode) : Option (List Tick) :=
  match mode with
  | DesignMode.draw_main => lv_linearscale_draw_scale inp
  | _ => some []

/-- Round-to-nearest division `round (a / b)` with halves rounding up,
written from the spec's `round(...)` formulas for tick positions and
label values, for comparison with the source's truncating division. -/
def specRoundDiv (a b : Nat) : Nat := (2 * a + b) / (2 * b)

/-- A concrete render input: the default state at value 50 in a 150×100
widget with no padding and simple style values. -/
def inpBase : DrawInput :=
  { ext := { defaultExt with cur_value := 50 }
    coords := { x1 := 0, y1 := 0, x2 := 149, y2 := 99 }
    bg_left := 0, bg_right := 0, bg_top := 0, bg_bottom := 0
    scale_width := 10, line_width := 3
    main_color := ⟨10, 20, 30⟩, grad_color := ⟨200, 100, 0⟩
    end_color := ⟨250, 250, 250⟩, end_line_width := 1 }

/-- The default state in a portrait (100×150) widget: the transpose of
`inpBase`. -/
def inpSwap : DrawInput :=
  { inpBase with coords := { x1 := 0, y1 := 0, x2 := 99, y2 := 149 } }

/-- A 100×90 widget with 50 pixels of left background padding. -/
def inpC3 : DrawInput :=
  { inpBase with coords := { x1 := 0, y1 := 0, x2 := 99, y2 := 89 }, bg_left := 50 }

/-- Nested hundredfold truncating division computes the floor of
`len * i / (line_cnt - 1)` whenever `len` is nonnegative. -/
theorem tick_coord_eq_floor (len : Int) (i n : Nat) (hlen : 0 ≤ len) (hn : 1 < n) :
    tick_coord len i n = len * (i : Int) / ((n : Int) - 1) := by
  lift len to ℕ using hlen with m
  have hcast : ((n : Int) - 1) = ((n - 1 : ℕ) : Int) := by omega
  have h100 : (0 : Int) ≤ 100 * (m : Int) * (i : Int) := by positivity
  have hd : (0 : Int) ≤ ((n - 1 : ℕ) : Int) := by positivity
  rw [tick_coord, hcast, Int.tdiv_eq_ediv h100 hd,
    Int.tdiv_eq_ediv (Int.ediv_nonneg h100 hd) (by norm_num)]
  have he : (100 : Int) * (m : Int) * (i : Int) = ((100 * m * i : ℕ) : Int) := by
    push_cast
    ring
  have hmi : (m : Int) * (i : Int) = ((m * i : ℕ) : Int) := by push_cast; ring
  rw [he, hmi]
  norm_cast
  rw [Nat.div_div_eq_div_mul, Nat.mul_comm (n - 1) 100, Nat.mul_assoc]
  exact Nat.mul_div_mul_left _ _ (by norm_num)

/-- When the major step is nonzero, the tick loop body produces a tick. -/
theorem draw_tick_eq_some (inp : DrawInput) (i : Nat)
    (hlc : label_counter inp.ext ≠ 0) : ∃ t, draw_tick inp i = some t := by
  simp only [draw_tick, if_neg hlc]
  exact ⟨_, rfl⟩

/-- In horizontal orientation the tick is a vertical segment whose x
coordinate is the indicator area's left edge plus the interpolated
coordinate. -/
theorem draw_tick_hor_x (inp : DrawInput) (i : Nat)
    (hlc : label_counter inp.ext ≠ 0) (hhor : hor inp = true) :
    ((draw_tick inp i).map fun t => (t.p1.x, t.p2.x)) =
      some ((indic_area inp).x1 +
          tick_coord ((indic_area inp).x2 - (indic_area inp).x1) i inp.ext.line_cnt,
        (indic_area inp).x1 +
          tick_coord ((indic_area inp).x2 - (indic_area inp).x1) i inp.ext.line_cnt) := by
  simp only [draw_tick, if_neg hlc, hhor, Option.map_some']
  split_ifs <;> first | rfl | contradiction

/-- In vertical orientation the tick is a horizontal segment whose y
coordinate is the indicator area's bottom edge minus the interpolated
coordinate. -/
theorem draw_tick_vert_y (inp : DrawInput) (i : Nat)
    (hlc : label_counter inp.ext ≠ 0) (hhor : hor inp = false) :
    ((draw_tick inp i).map fun t => (t.p1.y, t.p2.y)) =
      some ((indic_area inp).y2 -
          tick_coord ((indic_area inp).y2 - (indic_area inp).y1) i inp.ext.line_cnt,
        (indic_area inp).y2 -
          tick_coord ((indic_area inp).y2 - (indic_area inp).y1) i inp.ext.line_cnt) := by
  simp only [draw_tick, if_neg hlc, hhor, Option.map_some']
  split_ifs <;> first | rfl | contradiction

/-- C3 counterexample: a 100×90 widget with 50 pixels of left padding has
an indicator area of width 50 and height 90 (so width < height), yet the
render pass computes the horizontal orientation — the comparison uses the
full widget rectangle, before padding is subtracted. -/
theorem C3_counterexample :
    hor inpC3 = true ∧
    ¬ lv_area_get_height (indic_area inpC3) ≤ lv_area_get_width (indic_area inpC3) := by
  decide

/-- C3 (amended): the orientation is horizontal iff the full widget
rectangle's width is at least its height (before padding subtraction);
swapping the widget rectangle's width and height flips the orientation
whenever they differ; and horizontal ticks are anchored by x offset from
the indicator area's left edge while vertical ticks are anchored by y
offset from its bottom edge. -/
theorem C3_orientation (inp inp2 : DrawInput) (i : Nat) (t : Tick)
    (hsw : objw inp2 = objh inp ∧ objh inp2 = objw inp)
    (hne : objw inp ≠ objh inp)
    (ht : draw_tick inp i = some t) :
    (hor inp = true ↔ objh inp ≤ objw inp) ∧
    hor inp2 = !hor inp ∧
    (hor inp = true → t.p1.x = (indic_area inp).x1 +
        tick_coord ((indic_area inp).x2 - (indic_area inp).x1) i inp.ext.line_cnt ∧
      t.p2.x = t.p1.x) ∧
    (hor inp = false → t.p1.y = (indic_area inp).y2 -
        tick_coord ((indic_area inp).y2 - (indic_area inp).y1) i inp.ext.line_cnt ∧
      t.p2.y = t.p1.y) := by
  obtain ⟨hw, hh⟩ := hsw
  have hlc : label_counter inp.ext ≠ 0 := by
    intro h0
    simp [draw_tick, h0] at ht
  refine ⟨by simp [hor], ?_, ?_, ?_⟩
  · rcases hne.lt_or_lt with h | h
    · simp [hor, hw, hh, le_of_lt h, not_le.mpr h]
    · simp [hor, hw, hh, le_of_lt h, not_le.mpr h]
  · intro hhor
    have := draw_tick_hor_x inp i hlc hhor
    rw [ht, Option.map_some'] at this
    obtain ⟨h1, h2⟩ := Prod.mk.injEq _ _ _ _ ▸ Option.some.inj this
    exact ⟨h1, h2.trans h1.symm⟩
  · intro hhor
    have := draw_tick_vert_y inp i hlc hhor
    rw [ht, Option.map_some'] at this
    obtain ⟨h1, h2⟩ := Prod.mk.injEq _ _ _ _ ▸ Option.some.inj this
    exact ⟨h1, h2.trans h1.symm⟩

/-- C3 witness: the amended orientation theorem at the 150×100 input and
its 100×150 transpose, tick index 3. -/
theorem C3_orientation_witness :
    (hor inpBase = true ↔ objh inpBase ≤ objw inpBase) ∧
    hor inpSwap = !hor inpBase ∧
    (hor inpBase = true → ((draw_tick inpBase 3).getD default).p1.x =
        (indic_area inpBase).x1 +
        tick_coord ((indic_area inpBase).x2 - (indic_area inpBase).x1) 3
          inpBase.ext.line_cnt ∧
      ((draw_tick inpBase 3).getD default).p2.x =
        ((draw_tick inpBase 3).getD default).p1.x) ∧
    (hor inpBase = false → ((draw_tick inpBase 3).getD default).p1.y =
        (indic_area inpBase).y2 -
        tick_coord ((indic_area inpBase).y2 - (indic_area inpBase).y1) 3
          inpBase.ext.line_cnt ∧
      ((draw_tick inpBase 3).getD default).p2.y =
        ((draw_tick inpBase 3).getD default).p1.y) :=
  C3_orientation inpBase inpSwap 3 ((draw_tick inpBase 3).getD default)
    ⟨by decide, by decide⟩ (by decide) (by decide)

/-- State with 3 lines, 2 labels, range `[0,100]`. -/
def extC4 : Ext := { defaultExt with line_cnt := 3, label_cnt := 2 }

/-- A 4×2 widget with 3 ticks: indicator length 3 along x. -/
def inpC4 : DrawInput :=
  { inpBase with ext := extC4, coords := { x1 := 0, y1 := 0, x2 := 3, y2 := 1 } }

/-- C4 counterexample: with indicator length 3 and 3 ticks, tick index 1
is placed at offset 1 = floor(3·1/2) from the left edge, while the
claimed round((length · i)/(lineCount − 1)) = round(1.5) is 2. -/
theorem C4_counterexample :
    ((draw_tick inpC4 1).map fun t => t.p1.x) = some 1 ∧
    (specRoundDiv (3 * 1) (3 - 1) : Int) = 2 ∧ (1 : Int) ≠ 2 := by
  decide

/-- C4 (amended): the tick offset along the primary axis from the
indicator area's start edge (left edge when horizontal, bottom edge when
vertical) equals floor((length · i) / (lineCount − 1)) — the integer
arithmetic truncates, it does not round to nearest. -/
theorem C4_tick_position (inp : DrawInput) (i : Nat)
    (hn : 1 < inp.ext.line_cnt) (hlc : label_counter inp.ext ≠ 0)
    (hwnn : 0 ≤ (indic_area inp).x2 - (indic_area inp).x1)
    (hhnn : 0 ≤ (indic_area inp).y2 - (indic_area inp).y1) :
    (hor inp = true → ((draw_tick inp i).map fun t => t.p1.x - (indic_area inp).x1) =
      some (((indic_area inp).x2 - (indic_area inp).x1) * (i : Int) /
        ((inp.ext.line_cnt : Int) - 1))) ∧
    (hor inp = false → ((draw_tick inp i).map fun t => (indic_area inp).y2 - t.p1.y) =
      some (((indic_area inp).y2 - (indic_area inp).y1) * (i : Int) /
        ((inp.ext.line_cnt : Int) - 1))) := by
  obtain ⟨t, ht⟩ := draw_tick_eq_some inp i hlc
  constructor
  · intro hhor
    have hx := draw_tick_hor_x inp i hlc hhor
    rw [ht, Option.map_some'] at hx ⊢
    obtain ⟨h1, _⟩ := Prod.mk.injEq _ _ _ _ ▸ Option.some.inj hx
    rw [h1, add_sub_cancel_left, tick_coord_eq_floor _ _ _ hwnn hn]
  · intro hhor
    have hy := draw_tick_vert_y inp i hlc hhor
    rw [ht, Option.map_some'] at hy ⊢
    obtain ⟨h1, _⟩ := Prod.mk.injEq _ _ _ _ ▸ Option.some.inj hy
    rw [h1, sub_sub_cancel, tick_coord_eq_floor _ _ _ hhnn hn]

/-- C4 witness: the amended position theorem at the 150×100 input, tick
index 7. -/
theorem C4_tick_position_witness :
    (hor inpBase = true →
      ((draw_tick inpBase 7).map fun t => t.p1.x - (indic_area inpBase).x1) =
      some (((indic_area inpBase).x2 - (indic_area inpBase).x1) * (7 : Int) /
        ((inpBase.ext.line_cnt : Int) - 1))) ∧
    (hor inpBase = false →
      ((draw_tick inpBase 7).map fun t => (indic_area inpBase).y2 - t.p1.y) =
      some (((indic_area inpBase).y2 - (indic_area inpBase).y1) * (7 : Int) /
        ((inpBase.ext.line_cnt : Int) - 1))) :=
  C4_tick_position inpBase 7 (by decide) (by decide) (by decide) (by decide)

/-- A `mapM` over `Option` fails when the function fails on a member. -/
theorem mapM_eq_none_of_mem {α β : Type} (f : α → Option β) (l : List α) (a : α)
    (ha : a ∈ l) (hf : f a = none) : l.mapM f = none := by
  induction l with
  | nil => cases ha
  | cons x xs ih =>
    rw [List.mapM_cons]
    rcases List.mem_cons.mp ha with rfl | hmem
    · rw [hf]
      rfl
    · cases hfx : f x with
      | none => rfl
      | some v =>
        rw [ih hmem]
        rfl

/-- C9: with more than one line and at most one label, the derived major
step is zero and the `i % 0` fault in the minor-tick detection is reached
from the public render entry point — there is no special case for
`label_cnt ≤ 1`. -/
theorem C9_zero_step_fault (inp : DrawInput)
    (hline : 1 < inp.ext.line_cnt) (hlab : inp.ext.label_cnt ≤ 1) :
    label_counter inp.ext = 0 ∧
    lv_linearscale_design inp DesignMode.draw_main = none := by
  have hlc : label_counter inp.ext = 0 := by
    unfold label_counter
    rw [if_neg (by omega)]
  refine ⟨hlc, ?_⟩
  show lv_linearscale_draw_scale inp = none
  unfold lv_linearscale_draw_scale
  rw [if_pos hline]
  refine mapM_eq_none_of_mem _ _ 0 (List.mem_range.mpr (by omega)) ?_
  simp [draw_tick, hlc]

/-- Default state except a single label. -/
def inpC9 : DrawInput := { inpBase with ext := { defaultExt with label_cnt := 1 } }

/-- C9 witness: the fault theorem at 26 lines and one label. -/
theorem C9_zero_step_fault_witness :
    label_counter inpC9.ext = 0 ∧
    lv_linearscale_design inpC9 DesignMode.draw_main = none :=
  C9_zero_step_fault inpC9 (by decide) (by decide)

/-- Ticks at or beyond the fill level are drawn with the end color and
the end line width. -/
theorem draw_tick_color_end (inp : DrawInput) (i : Nat)
    (hlc : label_counter inp.ext ≠ 0) (hlev : level inp ≤ (i : Int)) :
    ((draw_tick inp i).map fun t => (t.color, t.dsc_width)) =
      some (inp.end_color, inp.end_line_width) := by
  simp only [draw_tick, if_neg hlc, Option.map_some']
  split_ifs <;> first | rfl | (exfalso; omega) | contradiction

/-- Ticks below the fill level are drawn with the gradient blend and the
style line width. -/
theorem draw_tick_color_grad (inp : DrawInput) (i : Nat)
    (hlc : label_counter inp.ext ≠ 0) (hlev : (i : Int) < level inp) :
    ((draw_tick inp i).map fun t => (t.color, t.dsc_width)) =
      some (lv_color_mix inp.grad_color inp.main_color ((255 * i) / inp.ext.line_cnt),
        inp.line_width) := by
  simp only [draw_tick, if_neg hlc, Option.map_some']
  split_ifs <;> first | rfl | (exfalso; omega) | contradiction

/-- A major tick's label value is
`(max_value - min_value) * i / (line_cnt - 1) + min_value` with C's
truncating division. -/
theorem draw_tick_label (inp : DrawInput) (i : Nat)
    (hlc : label_counter inp.ext ≠ 0)
    (hmaj : Int.tmod (i : Int) (label_counter inp.ext) = 0) :
    ((draw_tick inp i).bind fun t => t.label) =
      some (Int.tdiv ((inp.ext.max_value - inp.ext.min_value) * (i : Int))
        ((inp.ext.line_cnt : Int) - 1) + inp.ext.min_value) := by
  simp only [draw_tick, if_neg hlc, Option.some_bind]
  split_ifs <;> first | rfl | (exfalso; simp_all) | contradiction

/-- State reached from the defaults by `set_scale(40000, 2)` followed by
`set_value(100)`. -/
def extC5x : Ext :=
  { line_cnt := 40000, label_cnt := 2, cur_value := 100, min_value := 0
    max_value := 100, align := Align.left }

/-- The C5 wrap-region render input. -/
def inpC5x : DrawInput := { inpBase with ext := extC5x }

/-- C5 counterexample: the state with 40000 lines, range `[0,100]` and
value 100 is reachable through the public setters, and there the
`int16_t` cast at the level computation wraps the level to -25536 while
the claimed floor formula gives 40000; consequently tick 0 — far below
the claimed level — is drawn with the end color, not the gradient. -/
theorem C5_counterexample :
    (lv_linearscale_set_value (lv_linearscale_set_scale defaultExt 40000 2).1 100).1 =
      extC5x ∧
    level inpC5x = -25536 ∧
    ((inpC5x.ext.cur_value - inpC5x.ext.min_value) * (inpC5x.ext.line_cnt : Int)) /
      (inpC5x.ext.max_value - inpC5x.ext.min_value) = 40000 ∧
    (-25536 : Int) ≠ 40000 ∧
    ((draw_tick inpC5x 0).map fun t => t.color) = some inpC5x.end_color := by
  decide

/-- C5 (amended): with a proper range, a clamped stored value, and a line
count small enough that the level fits `int16_t` (`line_cnt ≤ 32767`, so
the narrowing cast is the identity — beyond it the cast wraps, as the
counterexample shows), the fill level is the floor of
`(cur - min) * lineCount / (max - min)`; ticks at or beyond it use the
end color and end line width, ticks below it the gradient blend; with
range `[0,100]`, 26 lines and value 50 the level is 13, ticks 0..12 use
the gradient and ticks 13..25 the end color. -/
theorem C5_fill_level (inp : DrawInput) (i : Nat)
    (hlt : inp.ext.min_value < inp.ext.max_value)
    (hlo : inp.ext.min_value ≤ inp.ext.cur_value)
    (hhi : inp.ext.cur_value ≤ inp.ext.max_value)
    (hfit : inp.ext.line_cnt ≤ 32767)
    (hlc : label_counter inp.ext ≠ 0) :
    level inp = ((inp.ext.cur_value - inp.ext.min_value) * (inp.ext.line_cnt : Int)) /
      (inp.ext.max_value - inp.ext.min_value) ∧
    (level inp ≤ (i : Int) →
      ((draw_tick inp i).map fun t => (t.color, t.dsc_width)) =
        some (inp.end_color, inp.end_line_width)) ∧
    ((i : Int) < level inp →
      ((draw_tick inp i).map fun t => (t.color, t.dsc_width)) =
        some (lv_color_mix inp.grad_color inp.main_color ((255 * i) / inp.ext.line_cnt),
          inp.line_width)) ∧
    level inpBase = 13 ∧
    (∀ j, 13 ≤ j → j < 26 → ((draw_tick inpBase j).map fun t => t.color) =
      some inpBase.end_color) ∧
    (∀ j, j < 13 → ((draw_tick inpBase j).map fun t => t.color) =
      some (lv_color_mix inpBase.grad_color inpBase.main_color ((255 * j) / 26))) := by
  have hnum : (0 : Int) ≤ (inp.ext.cur_value - inp.ext.min_value) *
      (inp.ext.line_cnt : Int) := by
    have : (0 : Int) ≤ inp.ext.cur_value - inp.ext.min_value := by omega
    positivity
  have hd0 : (0 : Int) < inp.ext.max_value - inp.ext.min_value := by omega
  have hlevel : level inp =
      ((inp.ext.cur_value - inp.ext.min_value) * (inp.ext.line_cnt : Int)) /
        (inp.ext.max_value - inp.ext.min_value) := by
    rw [level, Int.tdiv_eq_ediv hnum (le_of_lt hd0), toInt16]
    set q := ((inp.ext.cur_value - inp.ext.min_value) * (inp.ext.line_cnt : Int)) /
      (inp.ext.max_value - inp.ext.min_value) with hq
    have hq0 : 0 ≤ q := Int.ediv_nonneg hnum (le_of_lt hd0)
    have hqle : q ≤ (inp.ext.line_cnt : Int) := by
      have hle : (inp.ext.cur_value - inp.ext.min_value) * (inp.ext.line_cnt : Int) ≤
          (inp.ext.max_value - inp.ext.min_value) * (inp.ext.line_cnt : Int) := by
        apply mul_le_mul_of_nonneg_right (by omega) (by positivity)
      calc q ≤ ((inp.ext.max_value - inp.ext.min_value) * (inp.ext.line_cnt : Int)) /
            (inp.ext.max_value - inp.ext.min_value) := Int.ediv_le_ediv hd0 hle
        _ = (inp.ext.line_cnt : Int) := by
            rw [mul_comm]
            exact Int.mul_ediv_cancel _ (by omega)
    have hfit2 : q + 32768 < 65536 := by omega
    rw [Int.emod_eq_of_lt (by omega) hfit2]
    omega
  refine ⟨hlevel, ?_, ?_, by decide, by decide, by decide⟩
  · exact fun h => draw_tick_color_end inp i hlc h
  · exact fun h => draw_tick_color_grad inp i hlc h

/-- C5 witness: the fill-level theorem at the 150×100 default-style input
with value 50, tick index 20. -/
theorem C5_fill_level_witness :
    level inpBase = ((inpBase.ext.cur_value - inpBase.ext.min_value) *
      (inpBase.ext.line_cnt : Int)) / (inpBase.ext.max_value - inpBase.ext.min_value) ∧
    (level inpBase ≤ (20 : Int) →
      ((draw_tick inpBase 20).map fun t => (t.color, t.dsc_width)) =
        some (inpBase.end_color, inpBase.end_line_width)) ∧
    ((20 : Int) < level inpBase →
      ((draw_tick inpBase 20).map fun t => (t.color, t.dsc_width)) =
        some (lv_color_mix inpBase.grad_color inpBase.main_color
          ((255 * 20) / inpBase.ext.line_cnt), inpBase.line_width)) ∧
    level inpBase = 13 ∧
    (∀ j, 13 ≤ j → j < 26 → ((draw_tick inpBase j).map fun t => t.color) =
      some inpBase.end_color) ∧
    (∀ j, j < 13 → ((draw_tick inpBase j).map fun t => t.color) =
      some (lv_color_mix inpBase.grad_color inpBase.main_color ((255 * j) / 26))) :=
  C5_fill_level inpBase 20 (by decide) (by decide) (by decide) (by decide) (by decide)

/-- State with 40000 lines and 2 labels: the derived step 40000 narrows
through `int16_t` to -25536. -/
def extC6x : Ext :=
  { line_cnt := 40000, label_cnt := 2, cur_value := 0, min_value := 0
    max_value := 100, align := Align.left }

/-- The C6 wrap-region render input. -/
def inpC6x : DrawInput := { inpBase with ext := extC6x }

/-- C6 counterexample: with 40000 lines and 2 labels the derived step
40000 wraps through `int16_t` to -25536, and the code renders tick 25536
as major (`25536 % -25536 == 0` in C), with full `scale_width` and a
label — while the claimed test `25536 mod floor(40000/1) = 25536 ≠ 0`
calls it minor. -/
theorem C6_counterexample :
    ((draw_tick inpC6x 25536).map fun t => (t.minor, t.tick_width, t.label.isSome)) =
      some (false, 10, true) ∧
    ¬ (25536 % (40000 / (2 - 1)) = 0) := by
  decide

/-- C6 (amended): when `label_cnt > 1` and the derived step
`floor(line_cnt / (label_cnt - 1))` fits `int16_t` (so the narrowing at
its declaration is the identity; a nonzero step is also required, else
the loop faults), a tick is major exactly when its index is divisible by
that step; major ticks get the full `scale_width` and a label, minor
ticks the truncated half width and no label; with 26 lines and 6 labels
the majors are exactly indices 0, 5, 10, 15, 20, 25. -/
theorem C6_major_minor (inp : DrawInput) (i : Nat) (t : Tick)
    (hlab : 1 < inp.ext.label_cnt)
    (hlc : label_counter inp.ext ≠ 0)
    (hfit : inp.ext.line_cnt / (inp.ext.label_cnt - 1) ≤ 32767)
    (ht : draw_tick inp i = some t) :
    (t.minor = false ↔ i % (inp.ext.line_cnt / (inp.ext.label_cnt - 1)) = 0) ∧
    (t.minor = false → t.tick_width = inp.scale_width ∧ t.label.isSome = true) ∧
    (t.minor = true → t.tick_width = Int.tdiv inp.scale_width 2 ∧ t.label = none) ∧
    (∀ j, j < 26 → ((draw_tick inpBase j).map fun t2 => t2.minor) =
      some (decide (j ∉ ([0, 5, 10, 15, 20, 25] : List Nat)))) := by
  have hstep : label_counter inp.ext =
      ((inp.ext.line_cnt / (inp.ext.label_cnt - 1) : Nat) : Int) := by
    unfold label_counter toInt16
    rw [if_pos hlab]
    set s := inp.ext.line_cnt / (inp.ext.label_cnt - 1) with hs
    have h1 : (0 : Int) ≤ (s : Int) + 32768 := by positivity
    have h2 : (s : Int) + 32768 < 65536 := by omega
    rw [Int.emod_eq_of_lt h1 h2]
    omega
  simp only [draw_tick, if_neg hlc] at ht
  obtain rfl : _ = t := Option.some.inj ht
  refine ⟨?_, ?_, ?_, by decide⟩
  · rw [hstep]
    simp only [← Int.ofNat_tmod, bne_eq_false_iff_eq, Nat.cast_eq_zero]
  · intro hm
    simp only at hm
    simp [hm]
  · intro hm
    simp only at hm
    simp [hm]

/-- C6 witness: the major/minor theorem at tick index 5 of the default
input (step 5 fits `int16_t`). -/
theorem C6_major_minor_witness :
    (((draw_tick inpBase 5).getD default).minor = false ↔
      5 % (inpBase.ext.line_cnt / (inpBase.ext.label_cnt - 1)) = 0) ∧
    (((draw_tick inpBase 5).getD default).minor = false →
      ((draw_tick inpBase 5).getD default).tick_width = inpBase.scale_width ∧
      ((draw_tick inpBase 5).getD default).label.isSome = true) ∧
    (((draw_tick inpBase 5).getD default).minor = true →
      ((draw_tick inpBase 5).getD default).tick_width = Int.tdiv inpBase.scale_width 2 ∧
      ((draw_tick inpBase 5).getD default).label = none) ∧
    (∀ j, j < 26 → ((draw_tick inpBase j).map fun t2 => t2.minor) =
      some (decide (j ∉ ([0, 5, 10, 15, 20, 25] : List Nat)))) :=
  C6_major_minor inpBase 5 ((draw_tick inpBase 5).getD default)
    (by decide) (by decide) (by decide) (by decide)

/-- State with 3 lines, 3 labels, range `[0,3]`. -/
def extC7 : Ext :=
  { line_cnt := 3, label_cnt := 3, cur_value := 0, min_value := 0
    max_value := 3, align := Align.left }

/-- The C7 counterexample input. -/
def inpC7 : DrawInput := { inpBase with ext := extC7 }

/-- C7 counterexample: with range `[0,3]` and 3 lines (all ticks major
because the step is 1), the label at index 1 reads 1 = floor(3·1/2),
while the claimed round((max−min)·i/(lineCount−1)) + min = round(1.5)
is 2. -/
theorem C7_counterexample :
    ((draw_tick inpC7 1).bind fun t => t.label) = some 1 ∧
    (specRoundDiv ((3 - 0) * 1) (3 - 1) : Int) + 0 = 2 ∧ (1 : Int) ≠ 2 := by
  decide

/-- C7 (amended): a major tick's numeric label value equals
floor((max − min) · i / (lineCount − 1)) + min — truncating, not
round-to-nearest — independent of the current value; with range `[0,100]`
and 26 lines the labels at indices 0 and 25 read 0 and 100. -/
theorem C7_label_value (inp : DrawInput) (i : Nat) (c : Int)
    (hn : 1 < inp.ext.line_cnt)
    (hmm : inp.ext.min_value ≤ inp.ext.max_value)
    (hlc : label_counter inp.ext ≠ 0)
    (hmaj : Int.tmod (i : Int) (label_counter inp.ext) = 0) :
    ((draw_tick inp i).bind fun t => t.label) =
      some ((inp.ext.max_value - inp.ext.min_value) * (i : Int) /
        ((inp.ext.line_cnt : Int) - 1) + inp.ext.min_value) ∧
    ((draw_tick { inp with ext := { inp.ext with cur_value := c } } i).bind
        fun t => t.label) =
      ((draw_tick inp i).bind fun t => t.label) ∧
    ((draw_tick inpBase 0).bind fun t => t.label) = some 0 ∧
    ((draw_tick inpBase 25).bind fun t => t.label) = some 100 := by
  have hnn : (0 : Int) ≤ (inp.ext.max_value - inp.ext.min_value) * (i : Int) := by
    have : (0 : Int) ≤ inp.ext.max_value - inp.ext.min_value := by omega
    positivity
  have hdnn : (0 : Int) ≤ (inp.ext.line_cnt : Int) - 1 := by omega
  refine ⟨?_, ?_, by decide, by decide⟩
  · rw [draw_tick_label inp i hlc hmaj, Int.tdiv_eq_ediv hnn hdnn]
  · rw [draw_tick_label inp i hlc hmaj,
      draw_tick_label { inp with ext := { inp.ext with cur_value := c } } i hlc hmaj]

/-- C7 witness: the label-value theorem at tick index 25 of the default
input (current value 77 in the independence conjunct). -/
theorem C7_label_value_witness :
    ((draw_tick inpBase 25).bind fun t => t.label) =
      some ((inpBase.ext.max_value - inpBase.ext.min_value) * (25 : Int) /
        ((inpBase.ext.line_cnt : Int) - 1) + inpBase.ext.min_value) ∧
    ((draw_tick { inpBase with ext := { inpBase.ext with cur_value := 77 } } 25).bind
        fun t => t.label) =
      ((draw_tick inpBase 25).bind fun t => t.label) ∧
    ((draw_tick inpBase 0).bind fun t => t.label) = some 0 ∧
    ((draw_tick inpBase 25).bind fun t => t.label) = some 100 :=
  C7_label_value inpBase 25 77 (by decide) (by decide) (by decide) (by decide)

/-- C8: ticks below the fill level are colored by
`lv_color_mix gradColor mainColor ((255 * i) / lineCount)`; the mix
fraction at index 0 is 0, fraction 0 yields pure `gradColor`, and
fraction 255 (the endpoint approached as the index approaches
`lineCount`) yields `mainColor`. -/
theorem C8_gradient (inp : DrawInput) (i : Nat)
    (hlc : label_counter inp.ext ≠ 0) (hlev : (i : Int) < level inp) :
    ((draw_tick inp i).map fun t => t.color) =
      some (lv_color_mix inp.grad_color inp.main_color ((255 * i) / inp.ext.line_cnt)) ∧
    (255 * 0) / inp.ext.line_cnt = 0 ∧
    (∀ c1 c2 : Color, lv_color_mix c1 c2 0 = c1) ∧
    (∀ c1 c2 : Color, lv_color_mix c1 c2 255 = c2) := by
  refine ⟨?_, by simp, ?_, ?_⟩
  · obtain ⟨t, ht⟩ := draw_tick_eq_some inp i hlc
    have h := draw_tick_color_grad inp i hlc hlev
    rw [ht, Option.map_some'] at h ⊢
    obtain ⟨h1, _⟩ := Prod.mk.injEq _ _ _ _ ▸ Option.some.inj h
    rw [h1]
  · intro c1 c2
    cases c1
    cases c2
    simp [lv_color_mix]
  · intro c1 c2
    cases c1
    cases c2
    simp [lv_color_mix]

/-- C8 witness: the gradient theorem at tick index 3 of the default
input (level 13). -/
theorem C8_gradient_witness :
    ((draw_tick inpBase 3).map fun t => t.color) =
      some (lv_color_mix inpBase.grad_color inpBase.main_color
        ((255 * 3) / inpBase.ext.line_cnt)) ∧
    (255 * 0) / inpBase.ext.line_cnt = 0 ∧
    (∀ c1 c2 : Color, lv_color_mix c1 c2 0 = c1) ∧
    (∀ c1 c2 : Color, lv_color_mix c1 c2 255 = c2) :=
  C8_gradient inpBase 3 (by decide) (by decide)

end Linearscale
